import Mathlib

/-!
Shallow embedding of `src/SpiTransceiver.py`, a Saleae high-level analyzer
for the stm32wl transceiver protocol over SPI, together with theorems
checking the natural-language specification against it.

Timestamps are modelled as `Nat`.  An input `AnalyzerFrame` carries a type
tag, its timestamps and the `miso`/`mosi` byte payloads of its `data`
dictionary (only read for `"result"` frames).  An output `AnalyzerFrame`
carries a type tag, timestamps (which in the Python code are opaque values
taken either from the mutable state, where they live as possibly-`None`
fields, or from the incoming frame) and its `data` dictionary as an
association list.  The one fallible spot of the code, the index
`transaction["mosi"][0]` in `handle_disable` (an `IndexError` in Python if
the concatenated mosi stream is empty), is modelled by returning `Option`.
-/

/-- The static `COMMANDS` table of `SpiTransceiver.py` (opcode byte to
command name), transcribed entry by entry. -/
def COMMANDS : List (Nat × String) := [
  (0x89, "Calibrate"),
  (0x98, "CalibrateImage"),
  (0x08, "CfgDioIrq"),
  (0x07, "ClrError"),
  (0x02, "ClrIrqStatus"),
  (0x17, "GetError"),
  (0x12, "GetIrqStatus"),
  (0x14, "GetPacketStatus"),
  (0x11, "GetPacketType"),
  (0x15, "GetRssiInst"),
  (0x13, "GetRxBufferStatus"),
  (0x10, "GetStats"),
  (0xC0, "GetStatus"),
  (0x1E, "ReadBuffer"),
  (0x1D, "RegRegister"),
  (0x00, "ResetStats"),
  (0x8F, "SetBufferBaseAddress"),
  (0xC5, "SetCad"),
  (0x88, "SetCadParams"),
  (0xC1, "SetFs"),
  (0xA0, "SetLoRaSymbTimeout"),
  (0x8B, "SetModulationParams"),
  (0x8C, "SetPacketParams"),
  (0x8A, "SetPacketType"),
  (0x95, "SetPaConfig"),
  (0x96, "SetRegulatorMode"),
  (0x86, "SetRfFrequency"),
  (0x82, "SetRx"),
  (0x94, "SetRxDutyCycle"),
  (0x84, "SetSleep"),
  (0x80, "SetStandby"),
  (0x9F, "SetStopRxTimerOnPreamble"),
  (0x97, "SetTcxoMode"),
  (0x83, "SetTx"),
  (0xD2, "SetTxContinuousPreamble"),
  (0xD1, "SetTxContinuousWave"),
  (0x8E, "SetTxParams"),
  (0x93, "SetTxRxFallbackMode"),
  (0x0E, "WriteBuffer"),
  (0x0D, "WriteRegister")]

/-- `COMMANDS.get(b, "Unknown")` of the Python code. -/
def commandsGet (b : Nat) : String := (COMMANDS.lookup b).getD "Unknown"

/-- An input `AnalyzerFrame` delivered to `decode`: its type tag, its
timestamps, and the `miso`/`mosi` byte strings of its `data` dictionary. -/
structure Frame where
  type : String
  start_time : Nat
  end_time : Nat
  miso : List Nat
  mosi : List Nat
deriving Repr, DecidableEq

/-- An output `AnalyzerFrame` produced by the analyzer: type tag,
timestamps (possibly `None` in Python, hence `Option`), and the `data`
dictionary as an association list. -/
structure OutFrame where
  type : String
  start_time : Option Nat
  end_time : Option Nat
  data : List (String × String)
deriving Repr, DecidableEq

/-- The mutable fields of the `SpiTransceiver` instance. -/
structure State where
  frames : List Frame
  spi_enable : Bool
  transaction_start_time : Option Nat
  transaction_end_time : Option Nat
deriving Repr, DecidableEq

/-- The state set up by `__init__`. -/
def initState : State :=
  { frames := [], spi_enable := false,
    transaction_start_time := none, transaction_end_time := none }

/-- `handle_enable`: unconditionally reset to an open, empty session. -/
def handle_enable (_s : State) (_f : Frame) : State :=
  { frames := [], spi_enable := true,
    transaction_start_time := none, transaction_end_time := none }

/-- `reset`: the state after `self.reset()`. -/
def reset : State :=
  { frames := [], spi_enable := false,
    transaction_start_time := none, transaction_end_time := none }

/-- `is_valid_transaction`. -/
def is_valid_transaction (s : State) : Bool :=
  s.spi_enable && s.transaction_start_time.isSome

/-- `handle_result`: if SPI is enabled, set the start time if not yet set,
always set the end time, and append the frame; otherwise do nothing. -/
def handle_result (s : State) (f : Frame) : State :=
  if s.spi_enable then
    { frames := s.frames ++ [f],
      spi_enable := s.spi_enable,
      transaction_start_time :=
        if s.transaction_start_time.isNone then some f.start_time
        else s.transaction_start_time,
      transaction_end_time := some f.end_time }
  else s

/-- The dictionary returned by `get_frame_data`: the concatenations of the
accumulated frames' miso and mosi payloads, in order. -/
structure FrameData where
  miso : List Nat
  mosi : List Nat
deriving Repr, DecidableEq

/-- `get_frame_data`. -/
def get_frame_data (s : State) : FrameData :=
  { miso := (s.frames.map Frame.miso).flatten,
    mosi := (s.frames.map Frame.mosi).flatten }

/-- Python rendering of a `bool` under `str.format`. -/
def pyBool : Bool → String
  | true => "True"
  | false => "False"

/-- Python rendering of a possibly-`None` timestamp under `str.format`. -/
def pyOpt : Option Nat → String
  | none => "None"
  | some n => toString n

/-- The `error_info` message built in the invalid branch of
`handle_disable`. -/
def invalidMsg (s : State) : String :=
  "Invalid SPI transaction (spi_enable=" ++ pyBool s.spi_enable ++
    ", transaction_start_time=" ++ pyOpt s.transaction_start_time ++ ")"

/-- `handle_disable`: on a valid transaction, look up the first mosi byte
in `COMMANDS` and emit a `"command"` frame with the session timestamps
(`none` models the `IndexError` raised by `transaction["mosi"][0]` when the
concatenated mosi stream is empty); otherwise emit an `"error"` frame with
the close frame's timestamps.  Either way the state is reset. -/
def handle_disable (s : State) (f : Frame) : Option (State × OutFrame) :=
  if is_valid_transaction s then
    match (get_frame_data s).mosi[0]? with
    | none => none
    | some cmd =>
      some (reset,
        { type := "command",
          start_time := s.transaction_start_time,
          end_time := s.transaction_end_time,
          data := [("cmd", commandsGet cmd)] })
  else
    some (reset,
      { type := "error",
        start_time := some f.start_time,
        end_time := some f.end_time,
        data := [("error_info", invalidMsg s)] })

/-- `handle_error`: print a diagnostic and return `None`; the state is
untouched. -/
def handle_error (s : State) (_f : Frame) : State × Option OutFrame :=
  (s, none)

/-- `decode`: dispatch on the frame type tag.  The outer `Option` is `none`
exactly when `handle_disable` raises; the inner `Option OutFrame` is the
Python return value (`None` or an `AnalyzerFrame`). -/
def decode (s : State) (f : Frame) : Option (State × Option OutFrame) :=
  if f.type = "enable" then some (handle_enable s f, none)
  else if f.type = "result" then some (handle_result s f, none)
  else if f.type = "disable" then
    (handle_disable s f).map (fun p => (p.1, some p.2))
  else if f.type = "error" then some (handle_error s f)
  else
    some (s, some
      { type := "error",
        start_time := some f.start_time,
        end_time := some f.end_time,
        data := [("error_info",
          "Unexpected frame type from input analyzer: " ++ f.type)] })

/-- Feeding a list of `"result"` frames through `handle_result`. -/
def handleResults (s : State) (fs : List Frame) : State :=
  fs.foldl handle_result s

/-- Feeding a list of frames through `decode`, tracking only the state and
propagating a raised `IndexError` as `none`. -/
def runFrames (s : State) : List Frame → Option State
  | [] => some s
  | f :: fs =>
    match decode s f with
    | none => none
    | some (s2, _) => runFrames s2 fs

/-! ### Helper lemmas -/

lemma getLast?_getD_cons {α : Type} (l : List α) :
    ∀ a b : α, ((b :: l).getLast?).getD a = (l.getLast?).getD b := by
  induction l with
  | nil => intro a b; rfl
  | cons c t ih =>
    intro a b
    rw [List.getLast?_cons_cons, ih a c, ih b c]

lemma handle_result_spi_enable (s : State) (f : Frame) :
    (handle_result s f).spi_enable = s.spi_enable := by
  unfold handle_result; split <;> rfl

lemma handleResults_cons (s : State) (f : Frame) (fs : List Frame) :
    handleResults s (f :: fs) = handleResults (handle_result s f) fs := rfl

lemma handleResults_spi_enable (fs : List Frame) :
    ∀ s : State, (handleResults s fs).spi_enable = s.spi_enable := by
  induction fs with
  | nil => intro s; rfl
  | cons f fs ih =>
    intro s
    rw [handleResults_cons, ih, handle_result_spi_enable]

lemma handle_result_start_some (s : State) (f : Frame) (t : Nat)
    (h : s.transaction_start_time = some t) :
    (handle_result s f).transaction_start_time = some t := by
  unfold handle_result
  split
  · simp [h]
  · exact h

lemma handleResults_start_some (fs : List Frame) :
    ∀ (s : State) (t : Nat), s.transaction_start_time = some t →
      (handleResults s fs).transaction_start_time = some t := by
  induction fs with
  | nil => intro s t h; exact h
  | cons f fs ih =>
    intro s t h
    rw [handleResults_cons]
    exact ih _ t (handle_result_start_some s f t h)

lemma handle_result_start_first (s : State) (f : Frame)
    (hen : s.spi_enable = true) (hst : s.transaction_start_time = none) :
    (handle_result s f).transaction_start_time = some f.start_time := by
  unfold handle_result
  rw [hen]
  simp [hst]

lemma handle_result_end (s : State) (f : Frame) (hen : s.spi_enable = true) :
    (handle_result s f).transaction_end_time = some f.end_time := by
  unfold handle_result
  rw [hen]
  simp

lemma handleResults_end (fs : List Frame) :
    ∀ (s : State) (f : Frame), s.spi_enable = true →
      (handleResults s (f :: fs)).transaction_end_time =
        some ((fs.getLast?).getD f).end_time := by
  induction fs with
  | nil =>
    intro s f hen
    exact handle_result_end s f hen
  | cons g gs ih =>
    intro s f hen
    rw [handleResults_cons]
    have hen2 : (handle_result s f).spi_enable = true := by
      rw [handle_result_spi_enable]; exact hen
    rw [ih _ g hen2, getLast?_getD_cons gs f g]

/-! ### Claim theorems -/

/-- C8 counterexample: the command table does not have 41 entries. -/
theorem C8_not_41 : ¬ COMMANDS.length = 41 := by decide

/-- C8 (amended): the static command table supplied to the core maps
opcode bytes (distinct keys, each a byte value) to names and contains
exactly 40 entries. -/
theorem C8_command_table :
    COMMANDS.length = 40 ∧ (COMMANDS.map Prod.fst).Nodup ∧
      ∀ p ∈ COMMANDS, p.1 ≤ 255 := by
  refine ⟨by decide, by decide, by decide⟩

/-- C5: for every prior aggregator state, a session-open event produces no
output and sets the state to exactly an active session with no timestamps
and no accumulated frames, discarding any prior data. -/
theorem C5_open_resets (s : State) (f : Frame) (ht : f.type = "enable") :
    decode s f = some
      ({ frames := [], spi_enable := true,
         transaction_start_time := none, transaction_end_time := none },
       none) := by
  simp [decode, ht, handle_enable]

/-- C5 witness: opening a session on top of an already-open session with
accumulated data still yields the fresh open state and no output. -/
theorem C5_open_resets_witness :
    decode { frames := [{ type := "result", start_time := 1, end_time := 2,
                          miso := [0], mosi := [0x80] }],
             spi_enable := true, transaction_start_time := some 1,
             transaction_end_time := some 2 }
          { type := "enable", start_time := 7, end_time := 8,
            miso := [], mosi := [] } =
      some ({ frames := [], spi_enable := true,
              transaction_start_time := none, transaction_end_time := none },
            none) :=
  C5_open_resets _ _ rfl

/-- C6: an event whose type is none of the recognized kinds yields, at any
aggregator state, exactly one error result whose message contains the
event's type, carrying the event's own timestamps, and the state is
returned unchanged. -/
theorem C6_unrecognized (s : State) (f : Frame)
    (h1 : f.type ≠ "enable") (h2 : f.type ≠ "result")
    (h3 : f.type ≠ "disable") (h4 : f.type ≠ "error") :
    decode s f = some (s, some
      { type := "error",
        start_time := some f.start_time,
        end_time := some f.end_time,
        data := [("error_info",
          "Unexpected frame type from input analyzer: " ++ f.type)] }) := by
  simp [decode, h1, h2, h3, h4]

/-- C6 witness: a `"trigger"` event at the initial state yields the error
result naming the type and leaves the state alone. -/
theorem C6_unrecognized_witness :
    decode initState
        { type := "trigger", start_time := 3, end_time := 4,
          miso := [], mosi := [] } =
      some (initState, some
        { type := "error", start_time := some 3, end_time := some 4,
          data := [("error_info",
            "Unexpected frame type from input analyzer: trigger")] }) :=
  C6_unrecognized initState _ (by decide) (by decide) (by decide) (by decide)

/-- C4: a byte-transfer event processed while no session is active is
silently dropped: `decode` emits no result and returns every field of the
state unchanged; in particular this holds at the post-close state
`reset`. -/
theorem C4_drop_outside_session (s : State) (f : Frame)
    (hen : s.spi_enable = false) (ht : f.type = "result") :
    decode s f = some (s, none) ∧ handle_result s f = s ∧
      handle_result reset f = reset := by
  refine ⟨?_, ?_, ?_⟩
  · simp [decode, ht, handle_result, hen]
  · simp [handle_result, hen]
  · simp [handle_result, reset]

/-- C4 witness: a concrete byte frame arriving at the inactive initial
state is dropped with no result and no state change. -/
theorem C4_drop_outside_session_witness :
    decode initState
        { type := "result", start_time := 10, end_time := 11,
          miso := [1], mosi := [2] } =
      some (initState, none) :=
  (C4_drop_outside_session initState _ rfl rfl).1

/-- C1: a session-close event always returns exactly one result and resets
the state; on a valid session the result is a `"command"` frame carrying
the session's recorded timestamps, and on an invalid session it is an
`"error"` frame carrying the close event's own timestamps whose message
includes the current `spi_enable` flag and `transaction_start_time` value.
The hypothesis reflects the spec's data model, in which every byte event
contributes at least one host-to-device byte. -/
theorem C1_close_behavior (s : State) (f : Frame)
    (hsafe : is_valid_transaction s = true → (get_frame_data s).mosi ≠ []) :
    ∃ r : OutFrame, handle_disable s f = some (reset, r) ∧
      (is_valid_transaction s = true →
        r.type = "command" ∧
        r.start_time = s.transaction_start_time ∧
        r.end_time = s.transaction_end_time) ∧
      (is_valid_transaction s = false →
        r.type = "error" ∧
        r.start_time = some f.start_time ∧
        r.end_time = some f.end_time ∧
        r.data = [("error_info",
          "Invalid SPI transaction (spi_enable=" ++ pyBool s.spi_enable ++
            ", transaction_start_time=" ++
            pyOpt s.transaction_start_time ++ ")")]) := by
  by_cases hv : is_valid_transaction s = true
  · rcases hm : (get_frame_data s).mosi with _ | ⟨b, bs⟩
    · exact absurd hm (hsafe hv)
    · refine ⟨{ type := "command",
                start_time := s.transaction_start_time,
                end_time := s.transaction_end_time,
                data := [("cmd", commandsGet b)] }, ?_, ?_, ?_⟩
      · simp [handle_disable, hv, hm]
      · intro _; exact ⟨rfl, rfl, rfl⟩
      · intro hfalse; rw [hv] at hfalse; cases hfalse
  · rw [Bool.not_eq_true] at hv
    refine ⟨{ type := "error",
              start_time := some f.start_time,
              end_time := some f.end_time,
              data := [("error_info", invalidMsg s)] }, ?_, ?_, ?_⟩
    · simp [handle_disable, hv]
    · intro htrue; rw [hv] at htrue; cases htrue
    · intro _; exact ⟨rfl, rfl, rfl, rfl⟩

/-- C1 witness: closing at the inactive initial state takes the invalid
branch, with the close event's timestamps and the diagnostic message. -/
theorem C1_close_behavior_witness :
    ∃ r : OutFrame,
      handle_disable initState
          { type := "disable", start_time := 5, end_time := 9,
            miso := [], mosi := [] } =
        some (reset, r) ∧
      (is_valid_transaction initState = true →
        r.type = "command" ∧
        r.start_time = initState.transaction_start_time ∧
        r.end_time = initState.transaction_end_time) ∧
      (is_valid_transaction initState = false →
        r.type = "error" ∧
        r.start_time = some 5 ∧
        r.end_time = some 9 ∧
        r.data = [("error_info",
          "Invalid SPI transaction (spi_enable=" ++
            pyBool initState.spi_enable ++ ", transaction_start_time=" ++
            pyOpt initState.transaction_start_time ++ ")")]) :=
  C1_close_behavior initState _ (by decide)

/-- C2: on a valid session, the emitted result is always a `"command"`
frame (never an error), named by the command-table entry for the first
host-to-device byte, with `"Unknown"` as the fallback for a byte absent
from the table, and carrying the session's recorded timestamps. -/
theorem C2_command_name (s : State) (f : Frame) (b : Nat) (bs : List Nat)
    (hv : is_valid_transaction s = true)
    (hm : (get_frame_data s).mosi = b :: bs) :
    handle_disable s f = some (reset,
      { type := "command",
        start_time := s.transaction_start_time,
        end_time := s.transaction_end_time,
        data := [("cmd", (COMMANDS.lookup b).getD "Unknown")] }) := by
  simp [handle_disable, hv, hm, commandsGet]

/-- C2 witness: the spec's concrete scenario, opcode `0xC0` with one byte
event from 100 to 108, decodes to the command `GetStatus` with the
session's timestamps; a second application at an opcode absent from the
table yields the name `Unknown`, still as a `"command"` frame. -/
theorem C2_command_name_witness :
    handle_disable
        { frames := [{ type := "result", start_time := 100, end_time := 108,
                       miso := [0], mosi := [0xC0] }],
          spi_enable := true, transaction_start_time := some 100,
          transaction_end_time := some 108 }
        { type := "disable", start_time := 110, end_time := 111,
          miso := [], mosi := [] } =
      some (reset,
        { type := "command", start_time := some 100, end_time := some 108,
          data := [("cmd", "GetStatus")] }) ∧
    handle_disable
        { frames := [{ type := "result", start_time := 0, end_time := 1,
                       miso := [0], mosi := [0x01] }],
          spi_enable := true, transaction_start_time := some 0,
          transaction_end_time := some 1 }
        { type := "disable", start_time := 2, end_time := 3,
          miso := [], mosi := [] } =
      some (reset,
        { type := "command", start_time := some 0, end_time := some 1,
          data := [("cmd", "Unknown")] }) :=
  ⟨(C2_command_name _ _ 0xC0 [] (by decide) (by decide)).trans (by decide),
   (C2_command_name _ _ 0x01 [] (by decide) (by decide)).trans (by decide)⟩

/-- C3: for any nonempty sequence of byte events processed from an open
session with no start time yet, the resulting start time is the first
event's start time and the resulting end time is the last event's end
time; moreover each single byte event on an active session sets the end
time to that event's end time, and never overwrites an already-set start
time (so the start time is assigned exactly once). -/
theorem C3_session_times (s : State) (f : Frame) (fs : List Frame)
    (hen : s.spi_enable = true) (hst : s.transaction_start_time = none) :
    ((handleResults s (f :: fs)).transaction_start_time =
        some f.start_time ∧
      (handleResults s (f :: fs)).transaction_end_time =
        some ((fs.getLast?).getD f).end_time) ∧
      (∀ (u : State) (e : Frame), u.spi_enable = true →
        (handle_result u e).transaction_end_time = some e.end_time) ∧
      (∀ (u : State) (e : Frame) (t : Nat),
        u.transaction_start_time = some t →
          (handle_result u e).transaction_start_time = some t) := by
  refine ⟨⟨?_, ?_⟩, ?_, ?_⟩
  · rw [handleResults_cons]
    exact handleResults_start_some fs _ f.start_time
      (handle_result_start_first s f hen hst)
  · exact handleResults_end fs s f hen
  · exact fun u e hu => handle_result_end u e hu
  · exact fun u e t hu => handle_result_start_some u e t hu

/-- C3 witness: three byte events on a fresh open session set the start
time from the first event and the end time from the last. -/
theorem C3_session_times_witness :
    (handleResults (handle_enable initState
          { type := "enable", start_time := 0, end_time := 0,
            miso := [], mosi := [] })
        [{ type := "result", start_time := 10, end_time := 12,
           miso := [0], mosi := [0x80] },
         { type := "result", start_time := 13, end_time := 15,
           miso := [0], mosi := [0x01] },
         { type := "result", start_time := 16, end_time := 19,
           miso := [0], mosi := [0x02] }]).transaction_start_time =
      some 10 ∧
    (handleResults (handle_enable initState
          { type := "enable", start_time := 0, end_time := 0,
            miso := [], mosi := [] })
        [{ type := "result", start_time := 10, end_time := 12,
           miso := [0], mosi := [0x80] },
         { type := "result", start_time := 13, end_time := 15,
           miso := [0], mosi := [0x01] },
         { type := "result", start_time := 16, end_time := 19,
           miso := [0], mosi := [0x02] }]).transaction_end_time =
      some 19 := by
  have h := C3_session_times (handle_enable initState
      { type := "enable", start_time := 0, end_time := 0,
        miso := [], mosi := [] })
    { type := "result", start_time := 10, end_time := 12,
      miso := [0], mosi := [0x80] }
    [{ type := "result", start_time := 13, end_time := 15,
       miso := [0], mosi := [0x01] },
     { type := "result", start_time := 16, end_time := 19,
       miso := [0], mosi := [0x02] }] rfl rfl
  exact ⟨h.1.1, h.1.2.trans (by decide)⟩

/-! ### Further helper lemmas -/

lemma handle_disable_some (s : State) (f : Frame)
    (hsafe : is_valid_transaction s = true → (get_frame_data s).mosi ≠ []) :
    ∃ p, handle_disable s f = some p := by
  by_cases hv : is_valid_transaction s = true
  · rcases hm : (get_frame_data s).mosi with _ | ⟨b, bs⟩
    · exact absurd hm (hsafe hv)
    · exact ⟨(reset,
        { type := "command",
          start_time := s.transaction_start_time,
          end_time := s.transaction_end_time,
          data := [("cmd", commandsGet b)] }),
        by simp [handle_disable, hv, hm]⟩
  · rw [Bool.not_eq_true] at hv
    exact ⟨(reset,
      { type := "error",
        start_time := some f.start_time,
        end_time := some f.end_time,
        data := [("error_info", invalidMsg s)] }),
      by simp [handle_disable, hv]⟩

lemma handle_disable_reset (s : State) (f : Frame) (p : State × OutFrame)
    (hp : handle_disable s f = some p) : p.1 = reset := by
  unfold handle_disable at hp
  by_cases hv : is_valid_transaction s = true
  · rw [if_pos hv] at hp
    rcases hm : (get_frame_data s).mosi[0]? with _ | b <;> rw [hm] at hp
    · cases hp
    · injection hp with h
      rw [← h]
  · rw [if_neg hv] at hp
    injection hp with h
    rw [← h]

/-- The invariant maintained by `decode` on streams whose byte frames all
carry at least one mosi byte: a set start time witnesses an accumulated
frame, and every accumulated frame has a nonempty mosi payload. -/
def StreamInv (s : State) : Prop :=
  (s.transaction_start_time.isSome = true → s.frames ≠ []) ∧
    ∀ g ∈ s.frames, g.mosi ≠ []

lemma StreamInv_mosi (s : State) (hI : StreamInv s)
    (hv : is_valid_transaction s = true) :
    (get_frame_data s).mosi ≠ [] := by
  have hsome : s.transaction_start_time.isSome = true :=
    (Bool.and_eq_true _ _ |>.mp hv).2
  rcases hf : s.frames with _ | ⟨g, gs⟩
  · exact absurd hf (hI.1 hsome)
  · have hg : g.mosi ≠ [] := hI.2 g (by rw [hf]; exact List.mem_cons_self g gs)
    simp only [get_frame_data, hf, List.map_cons, List.flatten_cons]
    intro hcontra
    exact hg (List.append_eq_nil.mp hcontra).1

lemma decode_StreamInv (s : State) (f : Frame) (hI : StreamInv s)
    (hf : f.type = "result" → f.mosi ≠ []) :
    ∃ s2 out, decode s f = some (s2, out) ∧ StreamInv s2 := by
  by_cases h1 : f.type = "enable"
  · exact ⟨handle_enable s f, none, by simp [decode, h1],
      by simp [StreamInv, handle_enable]⟩
  · by_cases h2 : f.type = "result"
    · refine ⟨handle_result s f, none, by simp [decode, h1, h2], ?_⟩
      by_cases hen : s.spi_enable = true
      · have hr : handle_result s f =
            { frames := s.frames ++ [f],
              spi_enable := s.spi_enable,
              transaction_start_time :=
                if s.transaction_start_time.isNone then some f.start_time
                else s.transaction_start_time,
              transaction_end_time := some f.end_time } := by
          unfold handle_result
          rw [if_pos hen]
        rw [hr]
        constructor
        · intro _; simp
        · intro g hg
          simp only [List.mem_append, List.mem_singleton] at hg
          rcases hg with h | h
          · exact hI.2 g h
          · rw [h]; exact hf h2
      · have hr : handle_result s f = s := by
          unfold handle_result
          rw [if_neg hen]
        rw [hr]
        exact hI
    · by_cases h3 : f.type = "disable"
      · obtain ⟨p, hp⟩ :=
          handle_disable_some s f (fun hv => StreamInv_mosi s hI hv)
        refine ⟨p.1, some p.2, by simp [decode, h1, h2, h3, hp], ?_⟩
        rw [handle_disable_reset s f p hp]
        simp [StreamInv, reset]
      · by_cases h4 : f.type = "error"
        · exact ⟨s, none,
            by simp [decode, h1, h2, h3, h4, handle_error], hI⟩
        · exact ⟨s, some
            { type := "error",
              start_time := some f.start_time,
              end_time := some f.end_time,
              data := [("error_info",
                "Unexpected frame type from input analyzer: " ++ f.type)] },
            by simp [decode, h1, h2, h3, h4], hI⟩

lemma runFrames_StreamInv (fs : List Frame) :
    ∀ s : State, StreamInv s → (∀ f ∈ fs, f.type = "result" → f.mosi ≠ []) →
      ∃ s2, runFrames s fs = some s2 ∧ StreamInv s2 := by
  induction fs with
  | nil => intro s hI _; exact ⟨s, rfl, hI⟩
  | cons f fs ih =>
    intro s hI hall
    obtain ⟨s2, out, hd, hI2⟩ :=
      decode_StreamInv s f hI (hall f (List.mem_cons_self f fs))
    obtain ⟨s3, hrun, hI3⟩ :=
      ih s2 hI2 (fun g hg => hall g (List.mem_cons_of_mem f hg))
    refine ⟨s3, ?_, hI3⟩
    simp only [runFrames, hd]
    exact hrun

/-- C9: if every byte-transfer frame carries at least one host-to-device
byte, then running any frame stream from the initial state never hits the
`IndexError` of `transaction["mosi"][0]` (the run always returns a state),
and in the reached state a valid transaction always has a nonempty
concatenated mosi stream, so that the index-0 access is in range. -/
theorem C9_index_in_range (fs : List Frame)
    (h : ∀ f ∈ fs, f.type = "result" → f.mosi ≠ []) :
    ∃ s : State, runFrames initState fs = some s ∧
      (is_valid_transaction s = true → (get_frame_data s).mosi ≠ []) := by
  have hI : StreamInv initState := by simp [StreamInv, initState]
  obtain ⟨s2, hrun, hI2⟩ := runFrames_StreamInv fs initState hI h
  exact ⟨s2, hrun, fun hv => StreamInv_mosi s2 hI2 hv⟩

/-- C9 witness: a concrete open/byte/close stream runs to completion. -/
theorem C9_index_in_range_witness :
    ∃ s : State,
      runFrames initState
          [{ type := "enable", start_time := 0, end_time := 0,
             miso := [], mosi := [] },
           { type := "result", start_time := 1, end_time := 2,
             miso := [0], mosi := [0x80] },
           { type := "disable", start_time := 3, end_time := 4,
             miso := [], mosi := [] }] = some s ∧
      (is_valid_transaction s = true → (get_frame_data s).mosi ≠ []) :=
  C9_index_in_range _ (by decide)

/-- C7: a malformed-input (`"error"`) frame yields no result and leaves the
state unchanged, and `decode` emits exactly one result on session-close and
unrecognized frames and none on enable, byte-transfer, or malformed-input
frames.  The hypothesis reflects the spec's data model, in which every byte
event contributes at least one host-to-device byte. -/
theorem C7_result_counts (s : State) (f : Frame)
    (hsafe : is_valid_transaction s = true → (get_frame_data s).mosi ≠ []) :
    (f.type = "error" → decode s f = some (s, none)) ∧
      ∃ (s2 : State) (out : Option OutFrame), decode s f = some (s2, out) ∧
        (out.isSome = true ↔
          (f.type ≠ "enable" ∧ f.type ≠ "result" ∧ f.type ≠ "error")) := by
  by_cases h1 : f.type = "enable"
  · constructor
    · intro he; rw [h1] at he; exact absurd he (by decide)
    · exact ⟨handle_enable s f, none, by simp [decode, h1], by simp [h1]⟩
  · by_cases h2 : f.type = "result"
    · constructor
      · intro he; rw [h2] at he; exact absurd he (by decide)
      · exact ⟨handle_result s f, none, by simp [decode, h1, h2],
          by simp [h2]⟩
    · by_cases h3 : f.type = "disable"
      · obtain ⟨p, hp⟩ := handle_disable_some s f hsafe
        constructor
        · intro he; rw [h3] at he; exact absurd he (by decide)
        · exact ⟨p.1, some p.2, by simp [decode, h1, h2, h3, hp],
            by simp [h3]⟩
      · by_cases h4 : f.type = "error"
        · constructor
          · intro _; simp [decode, h1, h2, h3, h4, handle_error]
          · exact ⟨s, none, by simp [decode, h1, h2, h3, h4, handle_error],
              by simp [h4]⟩
        · constructor
          · intro he; exact absurd he h4
          · exact ⟨s, some
              { type := "error",
                start_time := some f.start_time,
                end_time := some f.end_time,
                data := [("error_info",
                  "Unexpected frame type from input analyzer: " ++
                    f.type)] },
              by simp [decode, h1, h2, h3, h4],
              by simp [h1, h2, h4]⟩

/-- C7 witness: a malformed-input frame at the initial state yields no
result and leaves the state unchanged. -/
theorem C7_result_counts_witness :
    ((⟨"error", 1, 2, [], []⟩ : Frame).type = "error" →
      decode initState ⟨"error", 1, 2, [], []⟩ = some (initState, none)) ∧
      ∃ (s2 : State) (out : Option OutFrame),
        decode initState ⟨"error", 1, 2, [], []⟩ = some (s2, out) ∧
          (out.isSome = true ↔
            ((⟨"error", 1, 2, [], []⟩ : Frame).type ≠ "enable" ∧
              (⟨"error", 1, 2, [], []⟩ : Frame).type ≠ "result" ∧
              (⟨"error", 1, 2, [], []⟩ : Frame).type ≠ "error")) :=
  C7_result_counts initState _ (by decide)

/-- The command frame emitted by `handle_disable` after a nonempty run of
byte events on a fresh open session: it depends only on the first mosi
byte, the first event's start time and the last event's end time. -/
lemma handle_disable_of_run (s0 : State) (f : Frame) (fs : List Frame)
    (e : Frame) (b : Nat)
    (hen : s0.spi_enable = true) (hst : s0.transaction_start_time = none)
    (hb : (get_frame_data (handleResults s0 (f :: fs))).mosi[0]? = some b) :
    handle_disable (handleResults s0 (f :: fs)) e =
      some (reset,
        { type := "command",
          start_time := some f.start_time,
          end_time := some ((fs.getLast?).getD f).end_time,
          data := [("cmd", commandsGet b)] }) := by
  have hen2 : (handleResults s0 (f :: fs)).spi_enable = true := by
    rw [handleResults_spi_enable]; exact hen
  have hstart : (handleResults s0 (f :: fs)).transaction_start_time =
      some f.start_time := by
    rw [handleResults_cons]
    exact handleResults_start_some fs _ _
      (handle_result_start_first s0 f hen hst)
  have hend := handleResults_end fs s0 f hen
  have hv : is_valid_transaction (handleResults s0 (f :: fs)) = true := by
    unfold is_valid_transaction
    rw [hen2, hstart]
    rfl
  unfold handle_disable
  rw [if_pos hv, hb, hstart, hend]

/-- C10: two sessions of byte events on fresh open sessions that agree on
the first host-to-device byte of the concatenated stream, on the first
event's start time, and on the last event's end time produce identical
results from `handle_disable`: the device-to-host bytes and every later
host-to-device byte never influence the emitted result. -/
theorem C10_noninterference (s0 t0 : State) (f g : Frame)
    (fs gs : List Frame) (e1 e2 : Frame) (b : Nat)
    (hs : s0.spi_enable = true) (hs2 : s0.transaction_start_time = none)
    (ht : t0.spi_enable = true) (ht2 : t0.transaction_start_time = none)
    (hb1 : (get_frame_data (handleResults s0 (f :: fs))).mosi[0]? = some b)
    (hb2 : (get_frame_data (handleResults t0 (g :: gs))).mosi[0]? = some b)
    (hstart : f.start_time = g.start_time)
    (hend : ((fs.getLast?).getD f).end_time =
      ((gs.getLast?).getD g).end_time) :
    handle_disable (handleResults s0 (f :: fs)) e1 =
      handle_disable (handleResults t0 (g :: gs)) e2 := by
  rw [handle_disable_of_run s0 f fs e1 b hs hs2 hb1,
    handle_disable_of_run t0 g gs e2 b ht ht2 hb2, hstart, hend]

/-- C10 witness: two concrete sessions sharing only opcode `0x80` and the
boundary timestamps, but differing in miso bytes, in trailing mosi bytes
and in event count, yield the same decoded result. -/
theorem C10_noninterference_witness :
    handle_disable
        (handleResults (handle_enable initState
            { type := "enable", start_time := 0, end_time := 0,
              miso := [], mosi := [] })
          [{ type := "result", start_time := 100, end_time := 108,
             miso := [7], mosi := [0x80, 0x01] }])
        { type := "disable", start_time := 109, end_time := 110,
          miso := [], mosi := [] } =
      handle_disable
        (handleResults (handle_enable initState
            { type := "enable", start_time := 50, end_time := 51,
              miso := [], mosi := [] })
          [{ type := "result", start_time := 100, end_time := 105,
             miso := [9], mosi := [0x80] },
           { type := "result", start_time := 106, end_time := 108,
             miso := [1, 2], mosi := [0xFF] }])
        { type := "disable", start_time := 200, end_time := 201,
          miso := [], mosi := [] } :=
  C10_noninterference _ _ _ _ _ _ _ _ 0x80 rfl rfl rfl rfl
    (by decide) (by decide) rfl (by decide)
